import Mathlib

/-!
Shallow embedding of the payment reconciliation engine of
`SolanaPaymentVerificationSystem.js` (class `SolanaVerifier`).

Modelling conventions:
* JS `number` amounts are modelled as `ℚ` (the code mixes SOL floats and
  lamport integers; `ℚ` represents every value the code manipulates exactly,
  floating-point rounding aside).
* Timestamps (`Date.now()`, `createdAt`, `expiresAt`, `confirmedAt`) are
  milliseconds as `ℤ`; ledger `blockTime` fields are seconds as `ℤ`.
* External I/O (the Solana RPC connection, the Solscan HTTP API) is passed in
  as explicit oracle arguments: `none` models the adapter throwing
  (network error / malformed response), `some txs` models a successful fetch.
* `pendingPayments` (a JS object keyed by payment id) is modelled as a
  function `String → Option Payment`; JS in-place mutation of a payment record
  becomes a functional update of the store at that key.
-/

inductive PaymentStatus
  | pending
  | confirmed
  | expired
deriving DecidableEq

/-- `LAMPORTS_PER_SOL` from `@solana/web3.js`. -/
def LAMPORTS_PER_SOL : ℚ := 1000000000

/-- One record of `this.pendingPayments`; `confirmedAt` and
`transactionSignature` are absent (`none`) until set on confirmation. -/
structure Payment where
  userId : String
  amountLamports : ℚ
  status : PaymentStatus
  createdAt : ℤ
  expiresAt : ℤ
  confirmedAt : Option ℤ
  transactionSignature : Option String
deriving DecidableEq

/-- `createPaymentRequest(userId, amountSol, metadata)` (lines 38-67), as the
stored record. Throws become `Except.error`; the opaque `metadata` bag is not
modelled (never interpreted). `now` stands for `Date.now()`. -/
def createPaymentRequest (userId : String) (amountSol : ℚ) (now : ℤ) :
    Except String Payment :=
  if userId = "" then .error "User ID is required"
  else if amountSol ≤ 0 then .error "Amount must be greater than 0"
  else .ok
    { userId := userId
      amountLamports := amountSol * LAMPORTS_PER_SOL
      status := .pending
      createdAt := now
      expiresAt := now + 30 * 60 * 1000
      confirmedAt := none
      transactionSignature := none }

/-- One account entry of an RPC transaction: `accountKeys[i]` together with
`meta.preBalances[i]` and `meta.postBalances[i]` (lamports). -/
structure RpcAccount where
  key : String
  preBalance : ℤ
  postBalance : ℤ
deriving DecidableEq

/-- One candidate from `getSignaturesForAddress` joined with its
`getTransaction` result. `failed` models `!tx || !tx.meta || tx.meta.err`;
`blockTime` is the signature's block time in seconds. -/
structure RpcTx where
  signature : String
  blockTime : ℤ
  failed : Bool
  accounts : List RpcAccount
deriving DecidableEq

/-- The inner account test of `checkPaymentStatusViaRPC` (lines 117-123):
the key equals the treasury wallet and
`Math.abs(balanceChange - payment.amountLamports) < 1000`. -/
def rpcAccountMatches (treasuryWallet : String) (amountLamports : ℚ)
    (a : RpcAccount) : Bool :=
  a.key = treasuryWallet &&
    |((a.postBalance - a.preBalance : ℤ) : ℚ) - amountLamports| < 1000

/-- The scan of `checkPaymentStatusViaRPC` (lines 100-132): drop signatures
with `blockTime * 1000` before `createdAt` (the JS filter keeps
`new Date(sig.blockTime*1000) >= new Date(payment.createdAt)`), skip failed
transactions, and return the first signature holding a matching treasury
account. -/
def findRpcMatch (treasuryWallet : String) (amountLamports : ℚ)
    (createdAt : ℤ) : List RpcTx → Option String
  | [] => none
  | tx :: rest =>
    if tx.blockTime * 1000 < createdAt then
      findRpcMatch treasuryWallet amountLamports createdAt rest
    else if tx.failed then
      findRpcMatch treasuryWallet amountLamports createdAt rest
    else
      match tx.accounts.find? (rpcAccountMatches treasuryWallet amountLamports) with
      | some _ => some tx.signature
      | none => findRpcMatch treasuryWallet amountLamports createdAt rest

/-- Transition applied on a successful match (lines 124-127 and 202-205):
`status = 'confirmed'; confirmedAt = Date.now(); transactionSignature = ref`. -/
def confirmPayment (p : Payment) (now : ℤ) (ref : String) : Payment :=
  { p with status := .confirmed, confirmedAt := some now,
           transactionSignature := some ref }

/-- `checkPaymentStatusViaRPC(paymentId)` (lines 74-140) on the looked-up
payment record. `rpcFetch = none` models the RPC query throwing, which the
`catch` turns into `false` with no state change. Returns the updated record
and the boolean result. -/
def checkPaymentStatusViaRPC (treasuryWallet : String) (now : ℤ)
    (rpcFetch : Option (List RpcTx)) (p : Payment) : Payment × Bool :=
  if p.status = .confirmed then (p, true)
  else if now > p.expiresAt then ({ p with status := .expired }, false)
  else
    match rpcFetch with
    | none => (p, false)
    | some txs =>
      match findRpcMatch treasuryWallet p.amountLamports p.createdAt txs with
      | some sig => (confirmPayment p now sig, true)
      | none => (p, false)

/-- One entry of `tx.tokenTransfers` in the Solscan response; `amount` is the
`parseFloat(transfer.amount)` value, denominated in SOL. -/
structure TokenTransfer where
  destination : String
  amount : ℚ
deriving DecidableEq

/-- One transaction of the Solscan account-transactions response.
`success` models `tx.status === 'Success'`; `tokenTransfers = none` models a
falsy `tx.tokenTransfers` field; `blockTime` is in seconds. -/
structure SolscanTx where
  txHash : String
  blockTime : ℤ
  success : Bool
  tokenTransfers : Option (List TokenTransfer)
deriving DecidableEq

/-- One entry of `txDetail.data.parsedInstruction`. `hasParams` models the
truthiness of `instruction.params`; `amount` is
`parseFloat(instruction.params.amount)`, denominated in SOL. -/
structure Instruction where
  typ : String
  hasParams : Bool
  destination : String
  amount : ℚ
deriving DecidableEq

/-- The per-transaction detail response of the second Solscan loop.
`success` models `txDetail.data && txDetail.data.status === 'Success'`;
`signerIncludesTreasury` models `txDetail.data.signer.includes(treasury)`
(false also when `signer` is falsy); `instructions = none` models a falsy
`parsedInstruction`. -/
structure TxDetail where
  success : Bool
  signerIncludesTreasury : Bool
  instructions : Option (List Instruction)
deriving DecidableEq

/-- The token-transfer test of `checkPaymentStatusViaSolscan` (lines 197-201):
destination is the treasury and
`Math.abs(amount * LAMPORTS_PER_SOL - payment.amountLamports) < 1000`. -/
def tokenTransferMatches (treasuryWallet : String) (amountLamports : ℚ)
    (t : TokenTransfer) : Bool :=
  t.destination = treasuryWallet &&
    |t.amount * LAMPORTS_PER_SOL - amountLamports| < 1000

/-- First Solscan loop (lines 187-211): skip transactions with
`blockTime < creationTimestamp`, require `status === 'Success'` and a truthy
`tokenTransfers`, and return the hash of the first transaction containing a
matching token transfer. -/
def findTokenMatch (treasuryWallet : String) (amountLamports : ℚ)
    (creationTimestamp : ℤ) : List SolscanTx → Option String
  | [] => none
  | tx :: rest =>
    if tx.blockTime < creationTimestamp then
      findTokenMatch treasuryWallet amountLamports creationTimestamp rest
    else if tx.success then
      match (tx.tokenTransfers.getD []).find?
          (tokenTransferMatches treasuryWallet amountLamports) with
      | some _ => some tx.txHash
      | none => findTokenMatch treasuryWallet amountLamports creationTimestamp rest
    else findTokenMatch treasuryWallet amountLamports creationTimestamp rest

/-- The instruction test of the second Solscan loop (lines 238-247):
`type === 'transfer'`, truthy `params`, `params.destination` is the treasury,
and `Math.abs(amountReceived - expectedAmount) < 0.0001` where both sides are
denominated in SOL. -/
def instructionMatches (treasuryWallet : String) (expectedAmount : ℚ)
    (ins : Instruction) : Bool :=
  ins.typ = "transfer" && ins.hasParams && ins.destination = treasuryWallet &&
    |ins.amount - expectedAmount| < 1 / 10000

/-- Second Solscan loop (lines 214-258): skip transactions with
`blockTime < creationTimestamp`; fetch the transaction detail (a throwing
fetch, `detail h = none`, aborts the whole `try` block: `Except.error ()`);
skip non-`Success` details and details whose signer includes the treasury;
return the hash of the first transaction containing a matching transfer
instruction. `expectedAmount` is `payment.amountLamports / LAMPORTS_PER_SOL`. -/
def findSolMatch (treasuryWallet : String) (expectedAmount : ℚ)
    (creationTimestamp : ℤ) (detail : String → Option TxDetail) :
    List SolscanTx → Except Unit (Option String)
  | [] => .ok none
  | tx :: rest =>
    if tx.blockTime < creationTimestamp then
      findSolMatch treasuryWallet expectedAmount creationTimestamp detail rest
    else
      match detail tx.txHash with
      | none => .error ()
      | some d =>
        if d.success then
          if d.signerIncludesTreasury then
            findSolMatch treasuryWallet expectedAmount creationTimestamp detail rest
          else
            match (d.instructions.getD []).find?
                (instructionMatches treasuryWallet expectedAmount) with
            | some _ => .ok (some tx.txHash)
            | none =>
              findSolMatch treasuryWallet expectedAmount creationTimestamp detail rest
        else
          findSolMatch treasuryWallet expectedAmount creationTimestamp detail rest

/-- `checkPaymentStatusViaSolscan(paymentId)` (lines 147-267) on the
looked-up payment record. `solscanFetch = none` models the account-transactions
request throwing or returning a non-array body; any throw inside the `try`
block (including a failing detail fetch) lands in the `catch`, which falls
back to `checkPaymentStatusViaRPC`. `creationTimestamp` is
`Math.floor(payment.createdAt / 1000)`. -/
def checkPaymentStatusViaSolscan (treasuryWallet : String) (now : ℤ)
    (solscanFetch : Option (List SolscanTx)) (detail : String → Option TxDetail)
    (rpcFetch : Option (List RpcTx)) (p : Payment) : Payment × Bool :=
  if p.status = .confirmed then (p, true)
  else if now > p.expiresAt then ({ p with status := .expired }, false)
  else
    match solscanFetch with
    | none => checkPaymentStatusViaRPC treasuryWallet now rpcFetch p
    | some txs =>
      let creationTimestamp := Int.fdiv p.createdAt 1000
      match findTokenMatch treasuryWallet p.amountLamports creationTimestamp txs with
      | some h => (confirmPayment p now h, true)
      | none =>
        match findSolMatch treasuryWallet (p.amountLamports / LAMPORTS_PER_SOL)
            creationTimestamp detail txs with
        | .error () => checkPaymentStatusViaRPC treasuryWallet now rpcFetch p
        | .ok (some h) => (confirmPayment p now h, true)
        | .ok none => (p, false)

/-- `checkPaymentStatus(paymentId)` (lines 274-283) on the looked-up record:
try Solscan first, fall back to RPC on error. The Solscan path already
catches every adapter error internally (its `catch` performs the RPC
fallback), so at the per-record level the composition is the Solscan path. -/
def checkPaymentStatus (treasuryWallet : String) (now : ℤ)
    (solscanFetch : Option (List SolscanTx)) (detail : String → Option TxDetail)
    (rpcFetch : Option (List RpcTx)) (p : Payment) : Payment × Bool :=
  checkPaymentStatusViaSolscan treasuryWallet now solscanFetch detail rpcFetch p

/-- The in-memory store `this.pendingPayments`, keyed by payment id. -/
def Store : Type := String → Option Payment

/-- Store-level `checkPaymentStatus`: looking up an unknown id throws
`'Payment not found'`; otherwise the record is checked and the mutation
written back at its key. -/
def checkPaymentStatusStore (treasuryWallet : String) (now : ℤ)
    (solscanFetch : Option (List SolscanTx)) (detail : String → Option TxDetail)
    (rpcFetch : Option (List RpcTx)) (s : Store) (paymentId : String) :
    Except String (Store × Bool) :=
  match s paymentId with
  | none => .error "Payment not found"
  | some p =>
    let r := checkPaymentStatus treasuryWallet now solscanFetch detail rpcFetch p
    .ok (fun i => if i = paymentId then some r.1 else s i, r.2)

/-- `cleanupExpiredPayments()` (lines 305-315): delete every record whose
status is `expired` or `confirmed` and whose age `now - createdAt` strictly
exceeds 24 hours; keep everything else untouched. -/
def cleanupExpiredPayments (now : ℤ) (s : Store) : Store :=
  fun paymentId =>
    match s paymentId with
    | none => none
    | some p =>
      if (p.status = .expired ∨ p.status = .confirmed) ∧
          now - p.createdAt > 24 * 60 * 60 * 1000 then none
      else some p

/-- The record-level invariant of the data model: `confirmedAt` and
`transactionSignature` are set exactly when the status is `confirmed`. -/
def IntentInv (p : Payment) : Prop :=
  (p.confirmedAt ≠ none ↔ p.status = .confirmed) ∧
  (p.transactionSignature ≠ none ↔ p.status = .confirmed)

/-- `IntentInv` holds of every record of the store. -/
def StoreInv (s : Store) : Prop :=
  ∀ paymentId p, s paymentId = some p → IntentInv p

/-- The reachable store states of a `SolanaVerifier`: the empty store, grown
and mutated by `createPaymentRequest`, the status checks (which write the
mutated record back at its key), and `cleanupExpiredPayments`. -/
inductive Reachable (treasuryWallet : String) : Store → Prop
  | init : Reachable treasuryWallet fun _ => none
  | create (s : Store) (paymentId userId : String) (amountSol : ℚ) (now : ℤ)
      (p : Payment) : Reachable treasuryWallet s →
      createPaymentRequest userId amountSol now = .ok p →
      Reachable treasuryWallet fun i => if i = paymentId then some p else s i
  | checkRpc (s : Store) (paymentId : String) (now : ℤ)
      (r : Option (List RpcTx)) (p : Payment) : Reachable treasuryWallet s →
      s paymentId = some p →
      Reachable treasuryWallet fun i =>
        if i = paymentId then some (checkPaymentStatusViaRPC treasuryWallet now r p).1
        else s i
  | check (s : Store) (paymentId : String) (now : ℤ)
      (f : Option (List SolscanTx)) (d : String → Option TxDetail)
      (r : Option (List RpcTx)) (p : Payment) : Reachable treasuryWallet s →
      s paymentId = some p →
      Reachable treasuryWallet fun i =>
        if i = paymentId then
          some (checkPaymentStatus treasuryWallet now f d r p).1
        else s i
  | cleanup (s : Store) (now : ℤ) : Reachable treasuryWallet s →
      Reachable treasuryWallet (cleanupExpiredPayments now s)

/-- A freshly created pending record: `createPaymentRequest "u" 1 0`. -/
def wPending : Payment :=
  ⟨"u", 1000000000, .pending, 0, 1800000, none, none⟩

/-- A confirmed record, as produced by a successful match. -/
def wConfirmed : Payment :=
  ⟨"u", 1000000000, .confirmed, 0, 1800000, some 5, some "sig"⟩

/-- An expired record, as produced by the expiration branch. -/
def wExpired : Payment :=
  ⟨"u", 1000000000, .expired, 0, 1800000, none, none⟩

/-- Pending record with `amountLamports = 500000000` (0.5 SOL, exact in
binary floating point): `createPaymentRequest "u" (1 / 2) 0`. -/
def cxTolPayment : Payment :=
  ⟨"u", 500000000, .pending, 0, 1800000, none, none⟩

/-- An RPC candidate whose treasury balance change is `500001000`, differing
from `cxTolPayment.amountLamports` by exactly the tolerance `1000`. -/
def cxTolTx : RpcTx := ⟨"sig1", 0, false, [⟨"T", 0, 500001000⟩]⟩

/-- Pending record created at `t = 1500` ms:
`createPaymentRequest "u" 1 1500`. -/
def cxEarlyPayment : Payment :=
  ⟨"u", 1000000000, .pending, 1500, 1801500, none, none⟩

/-- A Solscan candidate with `blockTime = 1` s (that is, 1000 ms, strictly
before `cxEarlyPayment.createdAt = 1500` ms) carrying an exact-amount token
transfer to the treasury. -/
def cxEarlyTx : SolscanTx := ⟨"h1", 1, true, some [⟨"T", 1⟩]⟩

/-- Pending record with `amountLamports = 1953125/2048 ≈ 953.67` (from
`amountSol = 2^-20`, a value on which binary floating point is exact):
`createPaymentRequest "u" (1 / 1048576) 0`. -/
def cxOutPayment : Payment :=
  ⟨"u", 1953125 / 2048, .pending, 0, 1800000, none, none⟩

/-- An RPC candidate in which the treasury balance strictly decreases
(`1000 → 954`, an outgoing transaction, balance change `-46`). -/
def cxOutTx : RpcTx := ⟨"sig3", 0, false, [⟨"T", 1000, 954⟩]⟩

/-- A one-record store holding `wPending` at key `"pay1"`. -/
def wStore : Store := fun i => if i = "pay1" then some wPending else none

/-- A mixed RPC candidate list: an amount-matching candidate one second
before `wPending.createdAt = 0` followed by an amount-matching candidate
after it. -/
def cxMixedRpc : List RpcTx :=
  [⟨"early", -1, false, [⟨"T", 0, 1000000000⟩]⟩,
   ⟨"late", 5, false, [⟨"T", 0, 1000000000⟩]⟩]

/-- A mixed Solscan candidate list: an amount-matching token transfer one
second before the creation second followed by one after it. -/
def cxMixedSolscan : List SolscanTx :=
  [⟨"hEarly", -1, true, some [⟨"T", 1⟩]⟩,
   ⟨"hLate", 5, true, some [⟨"T", 1⟩]⟩]

/-! Helper lemmas shared by the claim theorems. -/

lemma checkRPC_snd_iff_confirmed (t : String) (now : ℤ)
    (r : Option (List RpcTx)) (p : Payment) :
    (checkPaymentStatusViaRPC t now r p).2 = true ↔
    (checkPaymentStatusViaRPC t now r p).1.status = .confirmed := by
  unfold checkPaymentStatusViaRPC
  by_cases h1 : p.status = .confirmed
  · simp [h1]
  · by_cases h2 : now > p.expiresAt
    · simp [h1, h2]
    · cases r with
      | none => simp [h1, h2]
      | some txs =>
        cases hm : findRpcMatch t p.amountLamports p.createdAt txs with
        | none => simp [h1, h2, hm]
        | some sig => simp [h1, h2, hm, confirmPayment]

lemma checkSolscan_snd_iff_confirmed (t : String) (now : ℤ)
    (f : Option (List SolscanTx)) (d : String → Option TxDetail)
    (r : Option (List RpcTx)) (p : Payment) :
    (checkPaymentStatusViaSolscan t now f d r p).2 = true ↔
    (checkPaymentStatusViaSolscan t now f d r p).1.status = .confirmed := by
  unfold checkPaymentStatusViaSolscan
  by_cases h1 : p.status = .confirmed
  · simp [h1]
  · by_cases h2 : now > p.expiresAt
    · simp [h1, h2]
    · cases f with
      | none => simpa [h1, h2] using checkRPC_snd_iff_confirmed t now r p
      | some txs =>
        simp only [if_neg h1, if_neg h2]
        cases ht : findTokenMatch t p.amountLamports (Int.fdiv p.createdAt 1000) txs with
        | some h => simp [ht, confirmPayment]
        | none =>
          cases hsx : findSolMatch t (p.amountLamports / LAMPORTS_PER_SOL)
              (Int.fdiv p.createdAt 1000) d txs with
          | error e =>
            cases e
            simpa [ht, hsx] using checkRPC_snd_iff_confirmed t now r p
          | ok o =>
            cases o with
            | none => simp [ht, hsx, h1]
            | some h => simp [ht, hsx, confirmPayment]

/-- C6: for every valid input (`userId` present, `amountSol > 0`),
`createPaymentRequest` returns a stored intent whose status is `pending` and
whose `expiresAt - createdAt` is exactly the 30-minute TTL; the function takes
no ledger or indexer oracle, so it queries neither. -/
theorem createPaymentRequest_pending_ttl (userId : String) (amountSol : ℚ)
    (now : ℤ) (h1 : userId ≠ "") (h2 : 0 < amountSol) :
    ∃ p, createPaymentRequest userId amountSol now = .ok p ∧
      p.status = .pending ∧ p.expiresAt - p.createdAt = 30 * 60 * 1000 ∧
      p.createdAt = now := by
  rw [createPaymentRequest, if_neg h1, if_neg (not_le.mpr h2)]
  exact ⟨_, rfl, rfl, by show now + 30 * 60 * 1000 - now = 30 * 60 * 1000; omega, rfl⟩

/-- Witness for C6 at `userId = "u"`, `amountSol = 1`, `now = 0`. -/
theorem createPaymentRequest_pending_ttl_witness :
    ∃ p, createPaymentRequest "u" 1 0 = .ok p ∧
      p.status = .pending ∧ p.expiresAt - p.createdAt = 30 * 60 * 1000 ∧
      p.createdAt = 0 :=
  createPaymentRequest_pending_ttl "u" 1 0 (by decide) (by norm_num)

/-- C5: on a pending intent already past `expiresAt`, a status check (via the
composed path and via the direct RPC path alike) marks the record `expired`
and returns `false`, with a result that does not depend on — and never
consults — the Solscan or RPC oracles. -/
theorem checkPaymentStatus_expired_skips_adapters (t : String) (now : ℤ)
    (f : Option (List SolscanTx)) (d : String → Option TxDetail)
    (r : Option (List RpcTx)) (p : Payment)
    (hp : p.status = .pending) (hexp : now > p.expiresAt) :
    checkPaymentStatus t now f d r p = ({ p with status := .expired }, false) ∧
    checkPaymentStatusViaRPC t now r p = ({ p with status := .expired }, false) := by
  have h1 : ¬ p.status = .confirmed := by simp [hp]
  exact ⟨by simp [checkPaymentStatus, checkPaymentStatusViaSolscan, h1, hexp],
    by simp [checkPaymentStatusViaRPC, h1, hexp]⟩

/-- Witness for C5 at a concrete expired pending record and arbitrary failing
oracles. -/
theorem checkPaymentStatus_expired_skips_adapters_witness :
    checkPaymentStatus "T" 2000000 none (fun _ => none) none wPending =
      ({ wPending with status := .expired }, false) ∧
    checkPaymentStatusViaRPC "T" 2000000 none wPending =
      ({ wPending with status := .expired }, false) :=
  checkPaymentStatus_expired_skips_adapters "T" 2000000 none (fun _ => none)
    none wPending rfl (by decide)

/-- C8: a status check on an already-confirmed intent returns `true` and the
record completely unchanged (hence with the same `transactionSignature`), for
any oracles; a second check on the resulting record again returns the
identical record and `true`, so no re-evaluation, expiry, or further query
outcome can differ between the two calls. -/
theorem checkPaymentStatus_confirmed_sticky (t : String) (now now2 : ℤ)
    (f f2 : Option (List SolscanTx)) (d d2 : String → Option TxDetail)
    (r r2 : Option (List RpcTx)) (p : Payment) (hp : p.status = .confirmed) :
    checkPaymentStatus t now f d r p = (p, true) ∧
    checkPaymentStatus t now2 f2 d2 r2 (checkPaymentStatus t now f d r p).1 =
      (p, true) := by
  have h : checkPaymentStatus t now f d r p = (p, true) := by
    simp [checkPaymentStatus, checkPaymentStatusViaSolscan, hp]
  exact ⟨h, by rw [h]; simp [checkPaymentStatus, checkPaymentStatusViaSolscan, hp]⟩

/-- Witness for C8 at a concrete confirmed record. -/
theorem checkPaymentStatus_confirmed_sticky_witness :
    checkPaymentStatus "T" 9999999 (some []) (fun _ => none) none wConfirmed =
      (wConfirmed, true) ∧
    checkPaymentStatus "T" 10000000 none (fun _ => none) (some [])
      (checkPaymentStatus "T" 9999999 (some []) (fun _ => none) none wConfirmed).1 =
      (wConfirmed, true) :=
  checkPaymentStatus_confirmed_sticky "T" 9999999 10000000 (some []) none
    (fun _ => none) (fun _ => none) none (some []) wConfirmed rfl

/-- C4: (i) when the Solscan fetch fails (`none`), `checkPaymentStatus` gives
exactly the RPC adapter's result, whatever the RPC oracle returns; (ii) when
both adapters fail on a pending, unexpired intent, the result is `(p, false)`:
not confirmed, no error value, the record still pending and untouched. -/
theorem checkPaymentStatus_fallback (t : String) (now : ℤ)
    (d : String → Option TxDetail) (r : Option (List RpcTx)) (p : Payment) :
    checkPaymentStatus t now none d r p = checkPaymentStatusViaRPC t now r p ∧
    (p.status = .pending → ¬ now > p.expiresAt →
      checkPaymentStatus t now none d none p = (p, false)) := by
  constructor
  · by_cases h1 : p.status = .confirmed
    · simp [checkPaymentStatus, checkPaymentStatusViaSolscan,
        checkPaymentStatusViaRPC, h1]
    · by_cases h2 : now > p.expiresAt
      · simp [checkPaymentStatus, checkPaymentStatusViaSolscan,
          checkPaymentStatusViaRPC, h1, h2]
      · simp [checkPaymentStatus, checkPaymentStatusViaSolscan, h1, h2]
  · intro hp h2
    have h1 : ¬ p.status = .confirmed := by simp [hp]
    simp [checkPaymentStatus, checkPaymentStatusViaSolscan,
      checkPaymentStatusViaRPC, h1, h2]

/-- Witness for C4: with both oracles failing on a live pending record, the
check returns `(wPending, false)`; and the Solscan-failed path equals the RPC
path on the same inputs. -/
theorem checkPaymentStatus_fallback_witness :
    checkPaymentStatus "T" 100 none (fun _ => none) none wPending =
      checkPaymentStatusViaRPC "T" 100 none wPending ∧
    checkPaymentStatus "T" 100 none (fun _ => none) none wPending =
      (wPending, false) :=
  ⟨(checkPaymentStatus_fallback "T" 100 (fun _ => none) none wPending).1,
    (checkPaymentStatus_fallback "T" 100 (fun _ => none) none wPending).2
      rfl (by decide)⟩

/-- C10: for every id present in the store, the store-level
`checkPaymentStatus` succeeds and its boolean result is `true` exactly when
the record stored at that id after the call has status `confirmed`. -/
theorem checkPaymentStatusStore_true_iff_confirmed (t : String) (now : ℤ)
    (f : Option (List SolscanTx)) (d : String → Option TxDetail)
    (r : Option (List RpcTx)) (s : Store) (paymentId : String) (p : Payment)
    (hs : s paymentId = some p) :
    ∃ s2 b, checkPaymentStatusStore t now f d r s paymentId = .ok (s2, b) ∧
      ∃ p2, s2 paymentId = some p2 ∧ (b = true ↔ p2.status = .confirmed) := by
  unfold checkPaymentStatusStore
  rw [hs]
  refine ⟨_, _, rfl, (checkPaymentStatus t now f d r p).1, ?_, ?_⟩
  · simp
  · simpa [checkPaymentStatus] using checkSolscan_snd_iff_confirmed t now f d r p

/-- Witness for C10 at `wStore`, key `"pay1"`, failing oracles. -/
theorem checkPaymentStatusStore_true_iff_confirmed_witness :
    ∃ s2 b, checkPaymentStatusStore "T" 100 none (fun _ => none) none wStore
        "pay1" = .ok (s2, b) ∧
      ∃ p2, s2 "pay1" = some p2 ∧ (b = true ↔ p2.status = .confirmed) :=
  checkPaymentStatusStore_true_iff_confirmed "T" 100 none (fun _ => none) none
    wStore "pay1" wPending rfl

/-- C7: the cleanup sweep keeps every `pending` record whatever its age, keeps
terminal records whose age is within the 24-hour retention window, removes a
record only when it is terminal and strictly older than the window, and every
record it retains is returned unchanged. -/
theorem cleanupExpiredPayments_policy (now : ℤ) (s : Store)
    (paymentId : String) (p : Payment) (hs : s paymentId = some p) :
    (p.status = .pending → cleanupExpiredPayments now s paymentId = some p) ∧
    ((p.status = .confirmed ∨ p.status = .expired) →
      now - p.createdAt ≤ 24 * 60 * 60 * 1000 →
      cleanupExpiredPayments now s paymentId = some p) ∧
    (cleanupExpiredPayments now s paymentId = none →
      (p.status = .expired ∨ p.status = .confirmed) ∧
      now - p.createdAt > 24 * 60 * 60 * 1000) ∧
    (∀ q, cleanupExpiredPayments now s paymentId = some q → q = p) := by
  unfold cleanupExpiredPayments
  simp only [hs]
  by_cases hc : (p.status = .expired ∨ p.status = .confirmed) ∧
      now - p.createdAt > 24 * 60 * 60 * 1000
  · rw [if_pos hc]
    refine ⟨?_, ?_, fun _ => hc, fun q hq => by simp at hq⟩
    · intro hp
      rcases hc.1 with h | h <;> rw [hp] at h <;> exact PaymentStatus.noConfusion h
    · intro _ hle
      exact absurd hc.2 (not_lt.mpr hle)
  · rw [if_neg hc]
    exact ⟨fun _ => rfl, fun _ _ => rfl, fun h => by simp at h,
      fun q hq => by injection hq with h; exact h.symm⟩

/-- Witness for C7: a very old pending record is kept untouched by the sweep. -/
theorem cleanupExpiredPayments_policy_witness :
    (wPending.status = .pending →
      cleanupExpiredPayments 99999999999 wStore "pay1" = some wPending) ∧
    ((wPending.status = .confirmed ∨ wPending.status = .expired) →
      99999999999 - wPending.createdAt ≤ 24 * 60 * 60 * 1000 →
      cleanupExpiredPayments 99999999999 wStore "pay1" = some wPending) ∧
    (cleanupExpiredPayments 99999999999 wStore "pay1" = none →
      (wPending.status = .expired ∨ wPending.status = .confirmed) ∧
      99999999999 - wPending.createdAt > 24 * 60 * 60 * 1000) ∧
    (∀ q, cleanupExpiredPayments 99999999999 wStore "pay1" = some q →
      q = wPending) :=
  cleanupExpiredPayments_policy 99999999999 wStore "pay1" wPending rfl

lemma intentInv_create (userId : String) (amountSol : ℚ) (now : ℤ)
    (p : Payment) (h : createPaymentRequest userId amountSol now = .ok p) :
    IntentInv p := by
  unfold createPaymentRequest at h
  split_ifs at h
  all_goals first
    | exact Except.noConfusion h
    | (injection h with h
       subst h
       simp [IntentInv])

lemma intentInv_confirmPayment (p : Payment) (now : ℤ) (ref : String) :
    IntentInv (confirmPayment p now ref) := by
  simp [IntentInv, confirmPayment]

lemma intentInv_checkRPC (t : String) (now : ℤ) (r : Option (List RpcTx))
    (p : Payment) (h : IntentInv p) :
    IntentInv (checkPaymentStatusViaRPC t now r p).1 := by
  unfold checkPaymentStatusViaRPC
  by_cases h1 : p.status = .confirmed
  · simpa [h1] using h
  · have hca : p.confirmedAt = none := by
      by_contra hne
      exact h1 (h.1.mp hne)
    have hts : p.transactionSignature = none := by
      by_contra hne
      exact h1 (h.2.mp hne)
    by_cases h2 : now > p.expiresAt
    · simp [h1, h2, IntentInv, hca, hts]
    · cases r with
      | none => simpa [h1, h2] using h
      | some txs =>
        cases hm : findRpcMatch t p.amountLamports p.createdAt txs with
        | some sig => simp [h1, h2, hm, intentInv_confirmPayment]
        | none => simpa [h1, h2, hm] using h

lemma intentInv_check (t : String) (now : ℤ) (f : Option (List SolscanTx))
    (d : String → Option TxDetail) (r : Option (List RpcTx))
    (p : Payment) (h : IntentInv p) :
    IntentInv (checkPaymentStatus t now f d r p).1 := by
  unfold checkPaymentStatus checkPaymentStatusViaSolscan
  by_cases h1 : p.status = .confirmed
  · simpa [h1] using h
  · have hca : p.confirmedAt = none := by
      by_contra hne
      exact h1 (h.1.mp hne)
    have hts : p.transactionSignature = none := by
      by_contra hne
      exact h1 (h.2.mp hne)
    by_cases h2 : now > p.expiresAt
    · simp [h1, h2, IntentInv, hca, hts]
    · cases f with
      | none => simpa [h1, h2] using intentInv_checkRPC t now r p h
      | some txs =>
        simp only [if_neg h1, if_neg h2]
        cases ht : findTokenMatch t p.amountLamports (Int.fdiv p.createdAt 1000) txs with
        | some hh => simpa [ht] using intentInv_confirmPayment p now hh
        | none =>
          cases hsx : findSolMatch t (p.amountLamports / LAMPORTS_PER_SOL)
              (Int.fdiv p.createdAt 1000) d txs with
          | error e =>
            cases e
            simpa [ht, hsx] using intentInv_checkRPC t now r p h
          | ok o =>
            cases o with
            | none => simpa [ht, hsx] using h
            | some hh => simpa [ht, hsx] using intentInv_confirmPayment p now hh

/-- C9: in every reachable store state, a record's `confirmedAt` and
`transactionSignature` are set exactly when its status is `confirmed`;
creation, both status-check paths, and the cleanup sweep all preserve this. -/
theorem reachable_storeInv (t : String) (s : Store) (h : Reachable t s) :
    StoreInv s := by
  induction h with
  | init =>
    intro paymentId p hp
    simp at hp
  | create s pid uid amt now p hr hok ih =>
    intro paymentId q hq
    have hq2 : (if paymentId = pid then some p else s paymentId) = some q := hq
    by_cases hid : paymentId = pid
    · rw [if_pos hid] at hq2
      injection hq2 with hq2
      subst hq2
      exact intentInv_create uid amt now p hok
    · rw [if_neg hid] at hq2
      exact ih paymentId q hq2
  | checkRpc s pid now r p hr hsp ih =>
    intro paymentId q hq
    have hq2 :
        (if paymentId = pid then some (checkPaymentStatusViaRPC t now r p).1
          else s paymentId) = some q := hq
    by_cases hid : paymentId = pid
    · rw [if_pos hid] at hq2
      injection hq2 with hq2
      subst hq2
      exact intentInv_checkRPC t now r p (ih pid p hsp)
    · rw [if_neg hid] at hq2
      exact ih paymentId q hq2
  | check s pid now f d r p hr hsp ih =>
    intro paymentId q hq
    have hq2 :
        (if paymentId = pid then some (checkPaymentStatus t now f d r p).1
          else s paymentId) = some q := hq
    by_cases hid : paymentId = pid
    · rw [if_pos hid] at hq2
      injection hq2 with hq2
      subst hq2
      exact intentInv_check t now f d r p (ih pid p hsp)
    · rw [if_neg hid] at hq2
      exact ih paymentId q hq2
  | cleanup s now hr ih =>
    intro paymentId q hq
    unfold cleanupExpiredPayments at hq
    cases hsi : s paymentId with
    | none => rw [hsi] at hq; exact Option.noConfusion hq
    | some pp =>
      rw [hsi] at hq
      have hq2 :
          (if (pp.status = .expired ∨ pp.status = .confirmed) ∧
              now - pp.createdAt > 24 * 60 * 60 * 1000 then none
            else some pp) = some q := hq
      split_ifs at hq2
      injection hq2 with hq2
      subst hq2
      exact ih paymentId pp hsi

/-- Witness for C9: the invariant holds of the concrete store reached by one
`createPaymentRequest` from the empty store. -/
theorem reachable_storeInv_witness : StoreInv wStore :=
  reachable_storeInv "T" wStore
    (Reachable.create (fun _ => none) "pay1" "u" 1 0 wPending Reachable.init
      (by rw [createPaymentRequest, if_neg (by decide), if_neg (by norm_num)]
          norm_num [wPending, LAMPORTS_PER_SOL]))

lemma findRpcMatch_eq_some (t : String) (amt : ℚ) (c : ℤ)
    (txs : List RpcTx) (sig : String)
    (h : findRpcMatch t amt c txs = some sig) :
    ∃ tx ∈ txs, tx.signature = sig ∧ c ≤ tx.blockTime * 1000 := by
  induction txs with
  | nil => exact absurd h (by simp [findRpcMatch])
  | cons tx rest ih =>
    unfold findRpcMatch at h
    split_ifs at h with h1 h2
    · obtain ⟨tx2, hm, hs, hc⟩ := ih h
      exact ⟨tx2, List.mem_cons_of_mem tx hm, hs, hc⟩
    · obtain ⟨tx2, hm, hs, hc⟩ := ih h
      exact ⟨tx2, List.mem_cons_of_mem tx hm, hs, hc⟩
    · cases hf : tx.accounts.find? (rpcAccountMatches t amt) with
      | some a =>
        simp only [hf] at h
        injection h with h
        exact ⟨tx, List.mem_cons_self tx rest, h, not_lt.mp h1⟩
      | none =>
        simp only [hf] at h
        obtain ⟨tx2, hm, hs, hc⟩ := ih h
        exact ⟨tx2, List.mem_cons_of_mem tx hm, hs, hc⟩

lemma findTokenMatch_eq_some (t : String) (amt : ℚ) (c : ℤ)
    (txs : List SolscanTx) (h0 : String)
    (h : findTokenMatch t amt c txs = some h0) :
    ∃ tx ∈ txs, tx.txHash = h0 ∧ c ≤ tx.blockTime := by
  induction txs with
  | nil => exact absurd h (by simp [findTokenMatch])
  | cons tx rest ih =>
    unfold findTokenMatch at h
    split_ifs at h with h1 h2
    · obtain ⟨tx2, hm, hs, hc⟩ := ih h
      exact ⟨tx2, List.mem_cons_of_mem tx hm, hs, hc⟩
    · cases hf : (tx.tokenTransfers.getD []).find? (tokenTransferMatches t amt) with
      | some a =>
        simp only [hf] at h
        injection h with h
        exact ⟨tx, List.mem_cons_self tx rest, h, not_lt.mp h1⟩
      | none =>
        simp only [hf] at h
        obtain ⟨tx2, hm, hs, hc⟩ := ih h
        exact ⟨tx2, List.mem_cons_of_mem tx hm, hs, hc⟩
    · obtain ⟨tx2, hm, hs, hc⟩ := ih h
      exact ⟨tx2, List.mem_cons_of_mem tx hm, hs, hc⟩

lemma findSolMatch_eq_some (t : String) (e : ℚ) (c : ℤ)
    (d : String → Option TxDetail) (txs : List SolscanTx) (h0 : String)
    (h : findSolMatch t e c d txs = .ok (some h0)) :
    ∃ tx ∈ txs, tx.txHash = h0 ∧ c ≤ tx.blockTime := by
  induction txs with
  | nil => exact absurd h (by simp [findSolMatch])
  | cons tx rest ih =>
    unfold findSolMatch at h
    split_ifs at h with h1
    · obtain ⟨tx2, hm, hs, hc⟩ := ih h
      exact ⟨tx2, List.mem_cons_of_mem tx hm, hs, hc⟩
    · cases hd : d tx.txHash with
      | none =>
        simp only [hd] at h
        exact Except.noConfusion h
      | some det =>
        simp only [hd] at h
        split_ifs at h with h2 h3
        · obtain ⟨tx2, hm, hs, hc⟩ := ih h
          exact ⟨tx2, List.mem_cons_of_mem tx hm, hs, hc⟩
        · cases hf : (det.instructions.getD []).find? (instructionMatches t e) with
          | some a =>
            simp only [hf] at h
            injection h with h
            injection h with h
            exact ⟨tx, List.mem_cons_self tx rest, h, not_lt.mp h1⟩
          | none =>
            simp only [hf] at h
            obtain ⟨tx2, hm, hs, hc⟩ := ih h
            exact ⟨tx2, List.mem_cons_of_mem tx hm, hs, hc⟩
        · obtain ⟨tx2, hm, hs, hc⟩ := ih h
          exact ⟨tx2, List.mem_cons_of_mem tx hm, hs, hc⟩

lemma findRpcMatch_cons (t : String) (amt : ℚ) (c : ℤ) (tx : RpcTx)
    (rest : List RpcTx) :
    findRpcMatch t amt c (tx :: rest) =
      if tx.blockTime * 1000 < c then findRpcMatch t amt c rest
      else if tx.failed then findRpcMatch t amt c rest
      else
        match tx.accounts.find? (rpcAccountMatches t amt) with
        | some _ => some tx.signature
        | none => findRpcMatch t amt c rest := rfl

lemma findTokenMatch_cons (t : String) (amt : ℚ) (c : ℤ) (tx : SolscanTx)
    (rest : List SolscanTx) :
    findTokenMatch t amt c (tx :: rest) =
      if tx.blockTime < c then findTokenMatch t amt c rest
      else if tx.success then
        match (tx.tokenTransfers.getD []).find? (tokenTransferMatches t amt) with
        | some _ => some tx.txHash
        | none => findTokenMatch t amt c rest
      else findTokenMatch t amt c rest := rfl

lemma findSolMatch_cons (t : String) (e : ℚ) (c : ℤ)
    (d : String → Option TxDetail) (tx : SolscanTx) (rest : List SolscanTx) :
    findSolMatch t e c d (tx :: rest) =
      if tx.blockTime < c then findSolMatch t e c d rest
      else
        match d tx.txHash with
        | none => .error ()
        | some det =>
          if det.success then
            if det.signerIncludesTreasury then findSolMatch t e c d rest
            else
              match (det.instructions.getD []).find? (instructionMatches t e) with
              | some _ => .ok (some tx.txHash)
              | none => findSolMatch t e c d rest
          else findSolMatch t e c d rest := rfl

lemma findRpcMatch_filter_early (t : String) (amt : ℚ) (c : ℤ)
    (txs : List RpcTx) :
    findRpcMatch t amt c txs =
      findRpcMatch t amt c
        (txs.filter fun tx => decide (c ≤ tx.blockTime * 1000)) := by
  induction txs with
  | nil => rfl
  | cons tx rest ih =>
    by_cases h1 : tx.blockTime * 1000 < c
    · rw [List.filter_cons_of_neg (by simp [not_le.mpr h1]), findRpcMatch_cons,
        if_pos h1]
      exact ih
    · rw [List.filter_cons_of_pos (by simp [not_lt.mp h1]), findRpcMatch_cons,
        findRpcMatch_cons, if_neg h1, if_neg h1]
      by_cases h2 : tx.failed = true
      · rw [if_pos h2, if_pos h2]
        exact ih
      · rw [if_neg h2, if_neg h2]
        cases hf : tx.accounts.find? (rpcAccountMatches t amt) with
        | some a => simp [hf]
        | none =>
          simp only [hf]
          exact ih

lemma findTokenMatch_filter_early (t : String) (amt : ℚ) (c : ℤ)
    (txs : List SolscanTx) :
    findTokenMatch t amt c txs =
      findTokenMatch t amt c (txs.filter fun tx => decide (c ≤ tx.blockTime)) := by
  induction txs with
  | nil => rfl
  | cons tx rest ih =>
    by_cases h1 : tx.blockTime < c
    · rw [List.filter_cons_of_neg (by simp [not_le.mpr h1]), findTokenMatch_cons,
        if_pos h1]
      exact ih
    · rw [List.filter_cons_of_pos (by simp [not_lt.mp h1]), findTokenMatch_cons,
        findTokenMatch_cons, if_neg h1, if_neg h1]
      by_cases h2 : tx.success = true
      · rw [if_pos h2, if_pos h2]
        cases hf : (tx.tokenTransfers.getD []).find? (tokenTransferMatches t amt) with
        | some a => simp [hf]
        | none =>
          simp only [hf]
          exact ih
      · rw [if_neg h2, if_neg h2]
        exact ih

lemma findSolMatch_filter_early (t : String) (e : ℚ) (c : ℤ)
    (d : String → Option TxDetail) (txs : List SolscanTx) :
    findSolMatch t e c d txs =
      findSolMatch t e c d (txs.filter fun tx => decide (c ≤ tx.blockTime)) := by
  induction txs with
  | nil => rfl
  | cons tx rest ih =>
    by_cases h1 : tx.blockTime < c
    · rw [List.filter_cons_of_neg (by simp [not_le.mpr h1]), findSolMatch_cons,
        if_pos h1]
      exact ih
    · rw [List.filter_cons_of_pos (by simp [not_lt.mp h1]), findSolMatch_cons,
        findSolMatch_cons, if_neg h1, if_neg h1]
      cases hd : d tx.txHash with
      | none => simp [hd]
      | some det =>
        simp only [hd]
        by_cases h2 : det.success = true
        · rw [if_pos h2, if_pos h2]
          by_cases h3 : det.signerIncludesTreasury = true
          · rw [if_pos h3, if_pos h3]
            exact ih
          · rw [if_neg h3, if_neg h3]
            cases hf : (det.instructions.getD []).find? (instructionMatches t e) with
            | some a => simp [hf]
            | none =>
              simp only [hf]
              exact ih
        · rw [if_neg h2, if_neg h2]
          exact ih

lemma checkRPC_confirm_source (t : String) (now : ℤ)
    (r : Option (List RpcTx)) (p q : Payment) (h1 : p.status ≠ .confirmed)
    (hck : checkPaymentStatusViaRPC t now r p = (q, true)) :
    ∃ rl, r = some rl ∧ ∃ tx ∈ rl, q.transactionSignature = some tx.signature ∧
      p.createdAt ≤ tx.blockTime * 1000 := by
  unfold checkPaymentStatusViaRPC at hck
  rw [if_neg h1] at hck
  by_cases h2 : now > p.expiresAt
  · rw [if_pos h2] at hck
    simp at hck
  · rw [if_neg h2] at hck
    cases r with
    | none => simp at hck
    | some rl =>
      cases hm : findRpcMatch t p.amountLamports p.createdAt rl with
      | none =>
        simp only [hm] at hck
        simp at hck
      | some sig =>
        simp only [hm] at hck
        have hq : confirmPayment p now sig = q := by
          simpa using congrArg Prod.fst hck
        obtain ⟨tx, hmem, hsig, hle⟩ :=
          findRpcMatch_eq_some t p.amountLamports p.createdAt rl sig hm
        exact ⟨rl, rfl, tx, hmem, by simp [← hq, confirmPayment, hsig], hle⟩

lemma checkSolscan_confirm_source (t : String) (now : ℤ)
    (stxs : List SolscanTx) (d : String → Option TxDetail)
    (r : Option (List RpcTx)) (p q : Payment) (h1 : p.status ≠ .confirmed)
    (hck : checkPaymentStatusViaSolscan t now (some stxs) d r p = (q, true)) :
    (∃ tx ∈ stxs, q.transactionSignature = some tx.txHash ∧
      Int.fdiv p.createdAt 1000 ≤ tx.blockTime) ∨
    (∃ rl, r = some rl ∧ ∃ tx ∈ rl, q.transactionSignature = some tx.signature ∧
      p.createdAt ≤ tx.blockTime * 1000) := by
  unfold checkPaymentStatusViaSolscan at hck
  rw [if_neg h1] at hck
  by_cases h2 : now > p.expiresAt
  · rw [if_pos h2] at hck
    simp at hck
  · rw [if_neg h2] at hck
    cases ht : findTokenMatch t p.amountLamports (Int.fdiv p.createdAt 1000) stxs with
    | some h0 =>
      simp only [ht] at hck
      have hq : confirmPayment p now h0 = q := by
        simpa using congrArg Prod.fst hck
      obtain ⟨tx, hmem, hh, hle⟩ :=
        findTokenMatch_eq_some t p.amountLamports (Int.fdiv p.createdAt 1000)
          stxs h0 ht
      exact .inl ⟨tx, hmem, by simp [← hq, confirmPayment, hh], hle⟩
    | none =>
      simp only [ht] at hck
      cases hsx : findSolMatch t (p.amountLamports / LAMPORTS_PER_SOL)
          (Int.fdiv p.createdAt 1000) d stxs with
      | error ex =>
        cases ex
        simp only [hsx] at hck
        exact .inr (checkRPC_confirm_source t now r p q h1 hck)
      | ok o =>
        cases o with
        | none =>
          simp only [hsx] at hck
          simp at hck
        | some h0 =>
          simp only [hsx] at hck
          have hq : confirmPayment p now h0 = q := by
            simpa using congrArg Prod.fst hck
          obtain ⟨tx, hmem, hh, hle⟩ :=
            findSolMatch_eq_some t (p.amountLamports / LAMPORTS_PER_SOL)
              (Int.fdiv p.createdAt 1000) d stxs h0 hsx
          exact .inl ⟨tx, hmem, by simp [← hq, confirmPayment, hh], hle⟩

/-- C2 (amended): the temporal filter is per-candidate, in mixed lists too:
every match returned by either scan belongs to a candidate whose timestamp
passes the temporal bound of that adapter, and the result of each scan is
unchanged when the early candidates are removed, so an early candidate never
causes or influences a match. The bound is millisecond-exact in the RPC path
(`blockTime * 1000 ≥ createdAt`), but the Solscan path truncates `createdAt`
to whole seconds (`blockTime ≥ ⌊createdAt / 1000⌋`), so there a candidate up
to 999 ms strictly before `createdAt` can still be confirmed (see the
counterexample); the original strictly-before guarantee holds only in the RPC
path. At the check level, any confirmation carries the reference of a
candidate passing the bound of its source, with an RPC fallback confirmation held
to the millisecond-exact bound. -/
theorem temporal_filter_per_candidate (t : String) (now : ℤ) (amt e : ℚ)
    (cms cs : ℤ) (d : String → Option TxDetail) (r : Option (List RpcTx))
    (p q : Payment) (rtxs : List RpcTx) (stxs : List SolscanTx)
    (sig h : String) :
    (findRpcMatch t amt cms rtxs = some sig →
      ∃ tx ∈ rtxs, tx.signature = sig ∧ cms ≤ tx.blockTime * 1000) ∧
    (findTokenMatch t amt cs stxs = some h →
      ∃ tx ∈ stxs, tx.txHash = h ∧ cs ≤ tx.blockTime) ∧
    (findSolMatch t e cs d stxs = .ok (some h) →
      ∃ tx ∈ stxs, tx.txHash = h ∧ cs ≤ tx.blockTime) ∧
    findRpcMatch t amt cms rtxs =
      findRpcMatch t amt cms
        (rtxs.filter fun tx => decide (cms ≤ tx.blockTime * 1000)) ∧
    findTokenMatch t amt cs stxs =
      findTokenMatch t amt cs (stxs.filter fun tx => decide (cs ≤ tx.blockTime)) ∧
    findSolMatch t e cs d stxs =
      findSolMatch t e cs d (stxs.filter fun tx => decide (cs ≤ tx.blockTime)) ∧
    (p.status ≠ .confirmed →
      checkPaymentStatusViaRPC t now (some rtxs) p = (q, true) →
      ∃ tx ∈ rtxs, q.transactionSignature = some tx.signature ∧
        p.createdAt ≤ tx.blockTime * 1000) ∧
    (p.status ≠ .confirmed →
      checkPaymentStatusViaSolscan t now (some stxs) d r p = (q, true) →
      (∃ tx ∈ stxs, q.transactionSignature = some tx.txHash ∧
        Int.fdiv p.createdAt 1000 ≤ tx.blockTime) ∨
      (∃ rl, r = some rl ∧ ∃ tx ∈ rl,
        q.transactionSignature = some tx.signature ∧
        p.createdAt ≤ tx.blockTime * 1000)) := by
  refine ⟨fun hm => findRpcMatch_eq_some t amt cms rtxs sig hm,
    fun hm => findTokenMatch_eq_some t amt cs stxs h hm,
    fun hm => findSolMatch_eq_some t e cs d stxs h hm,
    findRpcMatch_filter_early t amt cms rtxs,
    findTokenMatch_filter_early t amt cs stxs,
    findSolMatch_filter_early t e cs d stxs,
    fun h1 hck => ?_,
    fun h1 hck => checkSolscan_confirm_source t now stxs d r p q h1 hck⟩
  obtain ⟨rl, hrl, hrest⟩ := checkRPC_confirm_source t now (some rtxs) p q h1 hck
  injection hrl with hrl
  subst hrl
  exact hrest

/-- Witness for the amended C2 on mixed candidate lists: an amount-matching
early candidate is present in both lists, yet each returned match is the
later candidate, whose timestamp passes the temporal bound. -/
theorem temporal_filter_per_candidate_witness :
    (∃ tx ∈ cxMixedRpc, tx.signature = "late" ∧ (0 : ℤ) ≤ tx.blockTime * 1000) ∧
    (∃ tx ∈ cxMixedSolscan, tx.txHash = "hLate" ∧ (0 : ℤ) ≤ tx.blockTime) ∧
    (∃ tx ∈ cxMixedRpc,
      (confirmPayment wPending 100 "late").transactionSignature =
        some tx.signature ∧ wPending.createdAt ≤ tx.blockTime * 1000) :=
  ⟨(temporal_filter_per_candidate "T" 100 1000000000 1 0 0 (fun _ => none)
      none wPending (confirmPayment wPending 100 "late") cxMixedRpc
      cxMixedSolscan "late" "hLate").1
      (by norm_num [findRpcMatch, rpcAccountMatches, cxMixedRpc, List.find?]),
    (temporal_filter_per_candidate "T" 100 1000000000 1 0 0 (fun _ => none)
      none wPending (confirmPayment wPending 100 "late") cxMixedRpc
      cxMixedSolscan "late" "hLate").2.1
      (by norm_num [findTokenMatch, tokenTransferMatches, cxMixedSolscan,
        LAMPORTS_PER_SOL, List.find?]),
    (temporal_filter_per_candidate "T" 100 1000000000 1 0 0 (fun _ => none)
      none wPending (confirmPayment wPending 100 "late") cxMixedRpc
      cxMixedSolscan "late" "hLate").2.2.2.2.2.2.1 (by decide)
      (by norm_num [checkPaymentStatusViaRPC, findRpcMatch, rpcAccountMatches,
        confirmPayment, cxMixedRpc, wPending, List.find?]
          decide)⟩

/-- C2 counterexample: the intent is created at `t = 1500` ms, the Solscan
candidate's ledger timestamp is `blockTime = 1` s (1000 ms), strictly before
`createdAt`, yet because `creationTimestamp = Math.floor(1500 / 1000) = 1`
the candidate passes the temporal filter and confirms the intent. -/
theorem temporal_filter_counterexample :
    createPaymentRequest "u" 1 1500 = .ok cxEarlyPayment ∧
    cxEarlyTx.blockTime * 1000 < cxEarlyPayment.createdAt ∧
    checkPaymentStatusViaSolscan "T" 2000 (some [cxEarlyTx]) (fun _ => none)
      none cxEarlyPayment =
      ({ cxEarlyPayment with
          status := .confirmed
          confirmedAt := some 2000
          transactionSignature := some "h1" }, true) := by
  refine ⟨?_, by decide, ?_⟩
  · rw [createPaymentRequest, if_neg (by decide), if_neg (by norm_num)]
    norm_num [cxEarlyPayment, LAMPORTS_PER_SOL]
  · norm_num [checkPaymentStatusViaSolscan, findTokenMatch, tokenTransferMatches,
      confirmPayment, cxEarlyTx, cxEarlyPayment, LAMPORTS_PER_SOL, List.find?,
      Int.fdiv]
    decide

/-- C1 (amended): the amount test is an exclusive (strict) tolerance
boundary, not an inclusive one: a candidate whose received amount differs
from the expected amount by the tolerance or more never matches, and one
whose difference is strictly below the tolerance (with the right address)
always matches. The tolerance is 1000 lamports in the RPC path and in the
Solscan token-transfer path, but in the Solscan SOL-instruction path it is
0.0001 and is compared in SOL, not in the ledger's smallest units
(0.0001 SOL = 100000 lamports), so the original claim's inclusive boundary
and its every-path smallest-unit denomination both fail. -/
theorem amount_tolerance_amended (t : String) (amt e : ℚ) (a : RpcAccount)
    (tr : TokenTransfer) (ins : Instruction) :
    (1000 ≤ |((a.postBalance - a.preBalance : ℤ) : ℚ) - amt| →
      rpcAccountMatches t amt a = false) ∧
    (a.key = t → |((a.postBalance - a.preBalance : ℤ) : ℚ) - amt| < 1000 →
      rpcAccountMatches t amt a = true) ∧
    (1000 ≤ |tr.amount * LAMPORTS_PER_SOL - amt| →
      tokenTransferMatches t amt tr = false) ∧
    (tr.destination = t → |tr.amount * LAMPORTS_PER_SOL - amt| < 1000 →
      tokenTransferMatches t amt tr = true) ∧
    (1 / 10000 ≤ |ins.amount - e| → instructionMatches t e ins = false) := by
  refine ⟨?_, ?_, ?_, ?_, ?_⟩
  · intro h
    simp only [rpcAccountMatches, Bool.and_eq_false_iff, decide_eq_false_iff_not,
      not_lt]
    right
    push_cast at h ⊢
    exact h
  · intro hk h
    simp only [rpcAccountMatches, Bool.and_eq_true, decide_eq_true_eq]
    refine ⟨hk, ?_⟩
    push_cast at h ⊢
    exact h
  · intro h
    simp [tokenTransferMatches, not_lt.mpr h]
  · intro hk h
    simp [tokenTransferMatches, hk, h]
  · intro h
    simp [instructionMatches, not_lt.mpr h]
    intro _ _ _
    rw [inv_eq_one_div]
    exact h

/-- Witness for the amended C1: difference exactly 1000 is rejected,
difference 500 is accepted, a token transfer off by one whole SOL is
rejected, an exact token transfer is accepted, and an instruction off by
0.5 SOL is rejected. -/
theorem amount_tolerance_amended_witness :
    rpcAccountMatches "T" 5000 ⟨"T", 0, 6000⟩ = false ∧
    rpcAccountMatches "T" 5000 ⟨"T", 0, 5500⟩ = true ∧
    tokenTransferMatches "T" 5000 ⟨"T", 1⟩ = false ∧
    tokenTransferMatches "T" 1000000000 ⟨"T", 1⟩ = true ∧
    instructionMatches "T" 1 ⟨"transfer", true, "T", 2⟩ = false :=
  ⟨(amount_tolerance_amended "T" 5000 1 ⟨"T", 0, 6000⟩ ⟨"T", 1⟩
      ⟨"transfer", true, "T", 2⟩).1 (by norm_num),
    (amount_tolerance_amended "T" 5000 1 ⟨"T", 0, 5500⟩ ⟨"T", 1⟩
      ⟨"transfer", true, "T", 2⟩).2.1 rfl (by norm_num),
    (amount_tolerance_amended "T" 5000 1 ⟨"T", 0, 6000⟩ ⟨"T", 1⟩
      ⟨"transfer", true, "T", 2⟩).2.2.1 (by norm_num [LAMPORTS_PER_SOL]),
    (amount_tolerance_amended "T" 1000000000 1 ⟨"T", 0, 6000⟩ ⟨"T", 1⟩
      ⟨"transfer", true, "T", 2⟩).2.2.2.1 rfl (by norm_num [LAMPORTS_PER_SOL]),
    (amount_tolerance_amended "T" 5000 1 ⟨"T", 0, 6000⟩ ⟨"T", 1⟩
      ⟨"transfer", true, "T", 2⟩).2.2.2.2 (by norm_num)⟩

/-- C1 counterexample: an intent expecting 0.5 SOL (500000000 lamports) and
a successful candidate paying 500001000 lamports to the treasury differ by
exactly the tolerance (1000), yet the matcher does not confirm — the boundary
is exclusive, contradicting the claimed inclusive boundary. -/
theorem amount_tolerance_counterexample :
    createPaymentRequest "u" (1 / 2) 0 = .ok cxTolPayment ∧
    |((500001000 - 0 : ℤ) : ℚ) - cxTolPayment.amountLamports| = 1000 ∧
    checkPaymentStatusViaRPC "T" 10 (some [cxTolTx]) cxTolPayment =
      (cxTolPayment, false) := by
  refine ⟨?_, ?_, ?_⟩
  · rw [createPaymentRequest, if_neg (by decide), if_neg (by norm_num)]
    norm_num [cxTolPayment, LAMPORTS_PER_SOL]
  · norm_num [cxTolPayment]
  · norm_num [checkPaymentStatusViaRPC, findRpcMatch, rpcAccountMatches,
      cxTolTx, cxTolPayment, List.find?]
    decide

/-- C3 (amended): the Solscan token path accepts only transfers whose
destination is the treasury, the Solscan SOL path accepts only transfer
instructions whose destination is the treasury and skips every transaction
whose detail lists the treasury among its signers; the RPC path has no
direction check of its own, but whenever the expected amount is at least the
1000-lamport tolerance, any account entry it accepts has a strictly positive
treasury balance change. For expected amounts below 1000 lamports the RPC
path can accept a non-increasing (even outgoing) transaction — see the
counterexample. -/
theorem direction_filter_amended (t : String) (amt e : ℚ) (a : RpcAccount)
    (tr : TokenTransfer) (ins : Instruction) (c : ℤ)
    (d : String → Option TxDetail) (tx : SolscanTx) (rest : List SolscanTx)
    (det : TxDetail) :
    (1000 ≤ amt → rpcAccountMatches t amt a = true →
      0 < a.postBalance - a.preBalance) ∧
    (tokenTransferMatches t amt tr = true → tr.destination = t) ∧
    (instructionMatches t e ins = true → ins.destination = t) ∧
    (d tx.txHash = some det → det.signerIncludesTreasury = true →
      findSolMatch t e c d (tx :: rest) = findSolMatch t e c d rest) := by
  refine ⟨?_, ?_, ?_, ?_⟩
  · intro hamt hm
    simp only [rpcAccountMatches, Bool.and_eq_true, decide_eq_true_eq] at hm
    obtain ⟨-, hlt⟩ := hm
    obtain ⟨hgt, -⟩ := abs_lt.mp hlt
    have hq : (0 : ℚ) < ((a.postBalance - a.preBalance : ℤ) : ℚ) := by linarith
    exact_mod_cast hq
  · intro hm
    simp only [tokenTransferMatches, Bool.and_eq_true, decide_eq_true_eq] at hm
    exact hm.1
  · intro hm
    simp only [instructionMatches, Bool.and_eq_true, decide_eq_true_eq] at hm
    exact hm.1.2
  · intro hdet hsig
    conv_lhs => rw [findSolMatch.eq_def]
    simp only []
    by_cases hbt : tx.blockTime < c
    · rw [if_pos hbt]
    · rw [if_neg hbt, hdet]
      by_cases hsucc : det.success
      · simp [hsucc, hsig]
      · simp [hsucc]

/-- Witness for the amended C3: an in-tolerance account entry for a
1000-lamport intent has a strictly positive balance change; accepted token
transfers and instructions point at the treasury; a treasury-signed
transaction is skipped by the SOL loop. -/
theorem direction_filter_amended_witness :
    (0 : ℤ) < (⟨"T", 0, 500⟩ : RpcAccount).postBalance -
      (⟨"T", 0, 500⟩ : RpcAccount).preBalance ∧
    (⟨"T", 1⟩ : TokenTransfer).destination = "T" ∧
    (⟨"transfer", true, "T", 1⟩ : Instruction).destination = "T" ∧
    findSolMatch "T" 1 0 (fun _ => some ⟨true, true, some []⟩)
      [⟨"h", 5, true, none⟩] =
      findSolMatch "T" 1 0 (fun _ => some ⟨true, true, some []⟩) [] :=
  ⟨(direction_filter_amended "T" 1000 1 ⟨"T", 0, 500⟩ ⟨"T", 1⟩
      ⟨"transfer", true, "T", 1⟩ 0 (fun _ => some ⟨true, true, some []⟩)
      ⟨"h", 5, true, none⟩ [] ⟨true, true, some []⟩).1 (by norm_num)
      (by norm_num [rpcAccountMatches]),
    (direction_filter_amended "T" 1000000000 1 ⟨"T", 0, 500⟩ ⟨"T", 1⟩
      ⟨"transfer", true, "T", 1⟩ 0 (fun _ => some ⟨true, true, some []⟩)
      ⟨"h", 5, true, none⟩ [] ⟨true, true, some []⟩).2.1
      (by norm_num [tokenTransferMatches, LAMPORTS_PER_SOL]),
    (direction_filter_amended "T" 1000 1 ⟨"T", 0, 500⟩ ⟨"T", 1⟩
      ⟨"transfer", true, "T", 1⟩ 0 (fun _ => some ⟨true, true, some []⟩)
      ⟨"h", 5, true, none⟩ [] ⟨true, true, some []⟩).2.2.1
      (by norm_num [instructionMatches]),
    (direction_filter_amended "T" 1000 1 ⟨"T", 0, 500⟩ ⟨"T", 1⟩
      ⟨"transfer", true, "T", 1⟩ 0 (fun _ => some ⟨true, true, some []⟩)
      ⟨"h", 5, true, none⟩ [] ⟨true, true, some []⟩).2.2.2 rfl rfl⟩

/-- C3 counterexample: a valid intent expecting about 953.67 lamports
(`amountSol = 2^-20`) is confirmed by a transaction in which the treasury
balance strictly decreases (1000 → 954 lamports, an outgoing transaction):
`|(-46) - 1953125/2048| = 2047333/2048 < 1000`. -/
theorem direction_filter_counterexample :
    createPaymentRequest "u" (1 / 1048576) 0 = .ok cxOutPayment ∧
    (cxOutTx.accounts.getD 0 ⟨"", 0, 0⟩).postBalance <
      (cxOutTx.accounts.getD 0 ⟨"", 0, 0⟩).preBalance ∧
    checkPaymentStatusViaRPC "T" 10 (some [cxOutTx]) cxOutPayment =
      ({ cxOutPayment with
          status := .confirmed
          confirmedAt := some 10
          transactionSignature := some "sig3" }, true) := by
  refine ⟨?_, by decide, ?_⟩
  · rw [createPaymentRequest, if_neg (by decide), if_neg (by norm_num)]
    norm_num [cxOutPayment, LAMPORTS_PER_SOL]
  · have habs : |(2047333 : ℚ) / 2048| < 1000 := by
      rw [abs_of_nonneg (by norm_num : (0 : ℚ) ≤ 2047333 / 2048)]
      norm_num
    norm_num [checkPaymentStatusViaRPC, findRpcMatch, rpcAccountMatches,
      confirmPayment, cxOutTx, cxOutPayment, List.find?, habs]
    decide
